import Mathlib

/-!
Verification of the five-node TCP relay application in `atividade2.cc`
(`TcpApp` class, the fully worked second variant the specification follows).

Shallow embedding conventions:
* An NS-3 `Ipv4Address` on network `10.0.0.0/255.0.0.0` is modelled by its
  host number: `interfaces.GetAddress(i)` is `10.0.0.(i+1)`, modelled as the
  natural number `i + 1`.  The literal `"10.0.0.1"` compared against in
  `ProcessReceivedPacket` is therefore the address `1` (node 0's address).
* A `Ptr<Socket>` member is modelled by a `Bool` recording whether the
  pointer is non-null (the constructor sets both to null).
* Packet payloads are lists of bytes (`List Nat`, each byte taken mod 256).
* The global Mersenne-Twister draw consumed by `GenerateRandomValue` is
  modelled by a list of raw draws threaded through the computation;
  `std::uniform_int_distribution<>(0, 100)` maps a raw draw into `[0, 100]`,
  modelled as reduction mod 101.
-/

namespace Atividade2

/-- `GenerateRandomValue` (lines 72-79): a Mersenne-Twister draw `r` passed
through `std::uniform_int_distribution<>(0, 100)`, which yields a value in
the inclusive range `[0, 100]`; modelled as `r % 101`. -/
def GenerateRandomValue (r : Nat) : Int :=
  ((r % 101 : Nat) : Int)

/-- Address of node `i`: `interfaces.GetAddress(i)` is `10.0.0.(i+1)`,
modelled by the host number `i + 1`. -/
def addrOf (i : Nat) : Nat :=
  i + 1

/-- The mutable per-application state of a `TcpApp` object: the node index,
the two stored neighbor addresses, the generator flag, and whether the two
socket pointers are non-null. -/
structure AppState where
  id : Nat
  right_neighbor_ip : Nat
  left_neighbor_ip : Nat
  generator : Bool
  sender_socket : Bool
  receiver_socket : Bool
deriving DecidableEq, Repr

/-- `SendPacket` transmits `htonl(number)`: the four bytes of the `int32_t`
`number`, reinterpreted as an unsigned 32-bit value, in big-endian order. -/
def encodeInt32BE (v : Int) : List Nat :=
  let n := (v % 4294967296).toNat
  [n / 16777216 % 256, n / 65536 % 256, n / 256 % 256, n % 256]

/-- The receiver's `packet->CopyData((uint8_t *)&networkOrderNumber, 4)`
followed by `ntohl`: the first four bytes of the payload, big-endian, read
back as a signed 32-bit value.  Bytes beyond the end of a short payload are
left-over uninitialized stack memory in the C++; they are modelled as 0, and
every theorem about payload values uses payloads of at least four bytes. -/
def decodeInt32BE (payload : List Nat) : Int :=
  let n := payload.getD 0 0 % 256 * 16777216 + payload.getD 1 0 % 256 * 65536 +
    payload.getD 2 0 % 256 * 256 + payload.getD 3 0 % 256
  if n < 2147483648 then (n : Int) else (n : Int) - 4294967296

/-- The `ConfigureApplication` call issued by `main` (lines 331-346) for node
`i`, starting from the constructor state (null sockets):
node 0 gets `right = left = GetAddress(1)` and `generator = true`;
node 4 gets `right = left = GetAddress(3)` and `generator = true`;
middle nodes get `right = GetAddress(i+1)`, `left = GetAddress(i-1)` and
`generator = false`. -/
def mainConfig (i : Nat) : AppState :=
  if i = 0 then
    { id := i, right_neighbor_ip := addrOf 1, left_neighbor_ip := addrOf 1,
      generator := true, sender_socket := false, receiver_socket := false }
  else if i = 4 then
    { id := i, right_neighbor_ip := addrOf 3, left_neighbor_ip := addrOf 3,
      generator := true, sender_socket := false, receiver_socket := false }
  else
    { id := i, right_neighbor_ip := addrOf (i + 1), left_neighbor_ip := addrOf (i - 1),
      generator := false, sender_socket := false, receiver_socket := false }

/-- `StartApplication` (lines 151-177): creates the receiver and sender
sockets (both pointers become non-null); if the node id is 0 it additionally
generates a random number (consuming the draw `r`), connects to its stored
left neighbor and sends the number.  Returns the new state and the list of
outbound sends as (destination address, value) pairs. -/
def startApplication (s : AppState) (r : Nat) : AppState × List (Nat × Int) :=
  let s1 := { s with receiver_socket := true, sender_socket := true }
  if s1.id = 0 then
    (s1, [(s1.left_neighbor_ip, GenerateRandomValue r)])
  else
    (s1, [])

/-- `StopApplication` (lines 180-192): closes and nulls each of the two
socket pointers that is non-null.  Returns the new state and the number of
`Close` calls performed (the releases). -/
def stopApplication (s : AppState) : AppState × Nat :=
  let p1 := if s.receiver_socket then
    ({ s with receiver_socket := false }, 1) else (s, 0)
  let p2 := if p1.1.sender_socket then
    ({ p1.1 with sender_socket := false }, p1.2 + 1) else (p1.1, p1.2)
  p2

/-- Result of one `ProcessReceivedPacket` invocation: the final state, the
outbound sends (destination address, value), the log lines
`"no: id recebeu: v"` as (id, value) pairs, and the unconsumed random
draws. -/
structure RecvOut where
  state : AppState
  sends : List (Nat × Int)
  logs : List (Nat × Int)
  rands : List Nat
deriving DecidableEq, Repr

/-- The `while ((packet = socket->RecvFrom(from)))` loop of
`ProcessReceivedPacket` (lines 211-251), over the queue of (sender address,
payload) pairs.  A zero-size packet breaks out of the loop with no log and
no send.  Otherwise the value is read from the payload, logged, and then:
if `id == 1` and the sender is `10.0.0.1` (address 1), the stored left
neighbor is overwritten with the right neighbor, the generator flag is set,
and the received value is sent to the right neighbor; else a generator node
sends a freshly generated value (consuming one draw) to its stored left
neighbor; else the received value is forwarded to the left neighbor when it
came from the right neighbor and to the right neighbor otherwise. -/
def recvLoop (s : AppState) (queue : List (Nat × List Nat)) (rands : List Nat) : RecvOut :=
  match queue with
  | [] => ⟨s, [], [], rands⟩
  | (fromAddr, payload) :: rest =>
    if payload.length = 0 then ⟨s, [], [], rands⟩
    else
      let v := decodeInt32BE payload
      if s.id = 1 ∧ fromAddr = 1 then
        let s1 := { s with left_neighbor_ip := s.right_neighbor_ip, generator := true }
        let out := recvLoop s1 rest rands
        ⟨out.state, (s.right_neighbor_ip, v) :: out.sends, (s.id, v) :: out.logs, out.rands⟩
      else if s.generator then
        let fresh := GenerateRandomValue (rands.headD 0)
        let out := recvLoop s rest (rands.drop 1)
        ⟨out.state, (s.left_neighbor_ip, fresh) :: out.sends, (s.id, v) :: out.logs, out.rands⟩
      else if s.right_neighbor_ip = fromAddr then
        let out := recvLoop s rest rands
        ⟨out.state, (s.left_neighbor_ip, v) :: out.sends, (s.id, v) :: out.logs, out.rands⟩
      else
        let out := recvLoop s rest rands
        ⟨out.state, (s.right_neighbor_ip, v) :: out.sends, (s.id, v) :: out.logs, out.rands⟩

/-- `ProcessReceivedPacket` (lines 200-252): a fresh sender socket is created
and stored (the pointer becomes non-null) before the receive loop runs. -/
def processReceivedPacket (s : AppState) (queue : List (Nat × List Nat))
    (rands : List Nat) : RecvOut :=
  recvLoop { s with sender_socket := true } queue rands

/-- The state of node `i` after `ConfigureApplication` and
`StartApplication` (the start draw only affects node 0's outbound send, not
its state). -/
def startedConfig (i : Nat) : AppState :=
  (startApplication (mainConfig i) 0).1

/-- Node 1's state after its one-time role flip: the stored left neighbor
has been overwritten with the right neighbor (address 3, node 2) and the
generator flag is set. -/
def flippedN1 : AppState :=
  { id := 1, right_neighbor_ip := 3, left_neighbor_ip := 3,
    generator := true, sender_socket := true, receiver_socket := true }

/-- State of the whole simulated run: the five started applications, the
single in-flight token (sender address, destination address, value) — the
substrate is reliable and ordered and every receipt produces exactly one
send, so at most one token is ever in flight — and the remaining random
draws of the shared generator. -/
structure Sys where
  n0 : AppState
  n1 : AppState
  n2 : AppState
  n3 : AppState
  n4 : AppState
  msgFrom : Nat
  msgTo : Nat
  msgVal : Int
  rands : List Nat
deriving DecidableEq, Repr

/-- Load the outbound send produced by a delivery into the in-flight slot:
the new sender address is the address of the node that just processed the
packet.  If the delivery produced no single send the in-flight slot is left
as is (unreachable under the run invariant). -/
def applySend (sys : Sys) (senderAddr : Nat) (sends : List (Nat × Int)) : Sys :=
  match sends with
  | [(dest, w)] => { sys with msgFrom := senderAddr, msgTo := dest, msgVal := w }
  | _ => sys

/-- One discrete event of the run: the in-flight token is delivered to the
node whose address is `msgTo`, that node's `ProcessReceivedPacket` runs on
the wire encoding of the value, and the resulting send becomes the new
in-flight token.  Returns the new system state and the sends performed. -/
def sysStepAux (sys : Sys) : Sys × List (Nat × Int) :=
  if sys.msgTo = 1 then
    let out := processReceivedPacket sys.n0 [(sys.msgFrom, encodeInt32BE sys.msgVal)] sys.rands
    (applySend { sys with n0 := out.state, rands := out.rands } sys.msgTo out.sends, out.sends)
  else if sys.msgTo = 2 then
    let out := processReceivedPacket sys.n1 [(sys.msgFrom, encodeInt32BE sys.msgVal)] sys.rands
    (applySend { sys with n1 := out.state, rands := out.rands } sys.msgTo out.sends, out.sends)
  else if sys.msgTo = 3 then
    let out := processReceivedPacket sys.n2 [(sys.msgFrom, encodeInt32BE sys.msgVal)] sys.rands
    (applySend { sys with n2 := out.state, rands := out.rands } sys.msgTo out.sends, out.sends)
  else if sys.msgTo = 4 then
    let out := processReceivedPacket sys.n3 [(sys.msgFrom, encodeInt32BE sys.msgVal)] sys.rands
    (applySend { sys with n3 := out.state, rands := out.rands } sys.msgTo out.sends, out.sends)
  else if sys.msgTo = 5 then
    let out := processReceivedPacket sys.n4 [(sys.msgFrom, encodeInt32BE sys.msgVal)] sys.rands
    (applySend { sys with n4 := out.state, rands := out.rands } sys.msgTo out.sends, out.sends)
  else
    (sys, [])

/-- The system state after one delivery. -/
def sysStep (sys : Sys) : Sys :=
  (sysStepAux sys).1

/-- The sends performed by the next delivery. -/
def stepSends (sys : Sys) : List (Nat × Int) :=
  (sysStepAux sys).2

/-- The run at simulated time `startOffset`: all five applications have been
configured and started; node 0's `StartApplication` consumed the first draw
and emitted the first token to its stored left neighbor (node 1). -/
def sysInit (rands : List Nat) : Sys :=
  let startOut := startApplication (mainConfig 0) (rands.headD 0)
  { n0 := startOut.1
    n1 := startedConfig 1
    n2 := startedConfig 2
    n3 := startedConfig 3
    n4 := startedConfig 4
    msgFrom := addrOf 0
    msgTo := (startOut.2.headD (0, 0)).1
    msgVal := (startOut.2.headD (0, 0)).2
    rands := rands.drop 1 }

/-- The run after `n` deliveries. -/
def runSys (rands : List Nat) : Nat → Sys
  | 0 => sysInit rands
  | n + 1 => sysStep (runSys rands n)

/-- The (sender address, destination address) pairs the in-flight token can
hold once node 1 has flipped: the token bounces along the live part of the
line, between node 1 (address 2) and node 4 (address 5). -/
def MsgCases : List (Nat × Nat) :=
  [(2, 3), (3, 4), (4, 5), (5, 4), (4, 3), (3, 2)]

/-- Run invariant: nodes 0, 2, 3 and 4 stay in their started configurations,
the in-flight value is in `[0, 100]`, and either node 1 has not flipped and
the initial token from node 0 is still in flight, or node 1 has flipped and
the token is bouncing along the live line. -/
def Inv (sys : Sys) : Prop :=
  sys.n0 = startedConfig 0 ∧ sys.n2 = startedConfig 2 ∧ sys.n3 = startedConfig 3 ∧
  sys.n4 = startedConfig 4 ∧ 0 ≤ sys.msgVal ∧ sys.msgVal ≤ 100 ∧
  ((sys.n1 = startedConfig 1 ∧ sys.msgFrom = 1 ∧ sys.msgTo = 2) ∨
   (sys.n1 = flippedN1 ∧ (sys.msgFrom, sys.msgTo) ∈ MsgCases))

example : startedConfig 2 =
    { id := 2, right_neighbor_ip := 4, left_neighbor_ip := 2,
      generator := false, sender_socket := true, receiver_socket := true } := by
  decide

example : (processReceivedPacket (startedConfig 2) [(2, encodeInt32BE 7)] []).sends
    = [(4, 7)] := by
  decide

/-- Reading back the wire encoding of a nonnegative `int32_t` value recovers
the value: `ntohl` after `htonl` is the identity on the values the protocol
carries. -/
theorem decode_encode (v : Int) (h0 : 0 ≤ v) (h1 : v < 2147483648) :
    decodeInt32BE (encodeInt32BE v) = v := by
  unfold encodeInt32BE decodeInt32BE
  have hmod : v % 4294967296 = v := Int.emod_eq_of_lt h0 (by omega)
  rw [hmod]
  simp only [List.getD, List.get?_cons_zero, List.get?_cons_succ,
    Option.getD_some]
  have hv : ((v.toNat : Int)) = v := Int.toNat_of_nonneg h0
  have hlt : v.toNat < 4294967296 := by omega
  set n := v.toNat with hn
  have hb : n / 16777216 % 256 % 256 * 16777216 + n / 65536 % 256 % 256 * 65536 +
      n / 256 % 256 % 256 * 256 + n % 256 % 256 = n := by
    omega
  rw [hb]
  have : n < 2147483648 := by omega
  simp [this, hv]

/-- The uniform draw is in the inclusive range `[0, 100]`. -/
theorem GenerateRandomValue_range (r : Nat) :
    0 ≤ GenerateRandomValue r ∧ GenerateRandomValue r ≤ 100 := by
  unfold GenerateRandomValue
  have := Nat.mod_lt r (show 0 < 101 by omega)
  omega

/-- The wire encoding of a token is always exactly four bytes. -/
theorem encodeInt32BE_length (v : Int) : (encodeInt32BE v).length = 4 := by
  rfl

/-- Delivery of the first token to node 1 in its pre-flip configuration:
node 1 flips and forwards the received value unchanged to node 2
(address 3). -/
theorem stepAux_pre (sys : Sys) (h1 : sys.n1 = startedConfig 1)
    (hf : sys.msgFrom = 1) (ht : sys.msgTo = 2)
    (hv0 : 0 ≤ sys.msgVal) (hv1 : sys.msgVal ≤ 100) :
    sysStepAux sys =
      (⟨sys.n0, flippedN1, sys.n2, sys.n3, sys.n4, 2, 3, sys.msgVal, sys.rands⟩,
       [(3, sys.msgVal)]) := by
  have hdec := decode_encode sys.msgVal hv0 (by omega)
  simp [sysStepAux, processReceivedPacket, recvLoop, applySend, h1, hf, ht, hdec,
    startedConfig, startApplication, mainConfig, addrOf, flippedN1, encodeInt32BE_length]

/-- Delivery to node 2 of a token sent by node 1: forwarded unchanged to
node 3 (address 4). -/
theorem stepAux_n2_fromLeft (sys : Sys) (h2 : sys.n2 = startedConfig 2)
    (hf : sys.msgFrom = 2) (ht : sys.msgTo = 3)
    (hv0 : 0 ≤ sys.msgVal) (hv1 : sys.msgVal ≤ 100) :
    sysStepAux sys =
      (⟨sys.n0, sys.n1, sys.n2, sys.n3, sys.n4, 3, 4, sys.msgVal, sys.rands⟩,
       [(4, sys.msgVal)]) := by
  have hdec := decode_encode sys.msgVal hv0 (by omega)
  simp [sysStepAux, processReceivedPacket, recvLoop, applySend, h2, hf, ht, hdec,
    startedConfig, startApplication, mainConfig, addrOf, encodeInt32BE_length]

/-- Delivery to node 2 of a token sent by node 3: forwarded unchanged to
node 1 (address 2). -/
theorem stepAux_n2_fromRight (sys : Sys) (h2 : sys.n2 = startedConfig 2)
    (hf : sys.msgFrom = 4) (ht : sys.msgTo = 3)
    (hv0 : 0 ≤ sys.msgVal) (hv1 : sys.msgVal ≤ 100) :
    sysStepAux sys =
      (⟨sys.n0, sys.n1, sys.n2, sys.n3, sys.n4, 3, 2, sys.msgVal, sys.rands⟩,
       [(2, sys.msgVal)]) := by
  have hdec := decode_encode sys.msgVal hv0 (by omega)
  simp [sysStepAux, processReceivedPacket, recvLoop, applySend, h2, hf, ht, hdec,
    startedConfig, startApplication, mainConfig, addrOf, encodeInt32BE_length]

/-- Delivery to node 3 of a token sent by node 2: forwarded unchanged to
node 4 (address 5). -/
theorem stepAux_n3_fromLeft (sys : Sys) (h3 : sys.n3 = startedConfig 3)
    (hf : sys.msgFrom = 3) (ht : sys.msgTo = 4)
    (hv0 : 0 ≤ sys.msgVal) (hv1 : sys.msgVal ≤ 100) :
    sysStepAux sys =
      (⟨sys.n0, sys.n1, sys.n2, sys.n3, sys.n4, 4, 5, sys.msgVal, sys.rands⟩,
       [(5, sys.msgVal)]) := by
  have hdec := decode_encode sys.msgVal hv0 (by omega)
  simp [sysStepAux, processReceivedPacket, recvLoop, applySend, h3, hf, ht, hdec,
    startedConfig, startApplication, mainConfig, addrOf, encodeInt32BE_length]

/-- Delivery to node 3 of a token sent by node 4: forwarded unchanged to
node 2 (address 3). -/
theorem stepAux_n3_fromRight (sys : Sys) (h3 : sys.n3 = startedConfig 3)
    (hf : sys.msgFrom = 5) (ht : sys.msgTo = 4)
    (hv0 : 0 ≤ sys.msgVal) (hv1 : sys.msgVal ≤ 100) :
    sysStepAux sys =
      (⟨sys.n0, sys.n1, sys.n2, sys.n3, sys.n4, 4, 3, sys.msgVal, sys.rands⟩,
       [(3, sys.msgVal)]) := by
  have hdec := decode_encode sys.msgVal hv0 (by omega)
  simp [sysStepAux, processReceivedPacket, recvLoop, applySend, h3, hf, ht, hdec,
    startedConfig, startApplication, mainConfig, addrOf, encodeInt32BE_length]

/-- Delivery to node 4: the endpoint discards the received value, generates
a fresh one (consuming a draw) and sends it to node 3 (address 4). -/
theorem stepAux_n4 (sys : Sys) (h4 : sys.n4 = startedConfig 4)
    (ht : sys.msgTo = 5) :
    sysStepAux sys =
      (⟨sys.n0, sys.n1, sys.n2, sys.n3, sys.n4, 5, 4,
        GenerateRandomValue (sys.rands.headD 0), sys.rands.drop 1⟩,
       [(4, GenerateRandomValue (sys.rands.headD 0))]) := by
  simp [sysStepAux, processReceivedPacket, recvLoop, applySend, h4, ht,
    startedConfig, startApplication, mainConfig, addrOf, encodeInt32BE_length]

/-- Delivery to node 1 after its flip, from any sender other than node 0:
node 1 regenerates (consuming a draw) and sends the fresh value to its live
neighbor, node 2 (address 3). -/
theorem stepAux_n1post (sys : Sys) (h1 : sys.n1 = flippedN1)
    (ht : sys.msgTo = 2) (hf : sys.msgFrom ≠ 1) :
    sysStepAux sys =
      (⟨sys.n0, flippedN1, sys.n2, sys.n3, sys.n4, 2, 3,
        GenerateRandomValue (sys.rands.headD 0), sys.rands.drop 1⟩,
       [(3, GenerateRandomValue (sys.rands.headD 0))]) := by
  simp [sysStepAux, processReceivedPacket, recvLoop, applySend, h1, ht, hf,
    flippedN1, encodeInt32BE_length]

/-- The initial system state satisfies the run invariant. -/
theorem inv_init (rands : List Nat) : Inv (sysInit rands) := by
  have hr := GenerateRandomValue_range (rands.headD 0)
  refine ⟨rfl, rfl, rfl, rfl, ?_, ?_, Or.inl ⟨rfl, rfl, rfl⟩⟩
  · exact hr.1
  · exact hr.2

/-- The run invariant is preserved by every delivery, and after a delivery
node 1 is always in its flipped state. -/
theorem inv_step (sys : Sys) (h : Inv sys) :
    Inv (sysStep sys) ∧ (sysStep sys).n1 = flippedN1 := by
  obtain ⟨h0, h2, h3, h4, hv0, hv1, hc⟩ := h
  rcases hc with ⟨h1, hf, ht⟩ | ⟨h1, hm⟩
  · have hs := stepAux_pre sys h1 hf ht hv0 hv1
    have : sysStep sys = ⟨sys.n0, flippedN1, sys.n2, sys.n3, sys.n4, 2, 3,
        sys.msgVal, sys.rands⟩ := by
      unfold sysStep
      rw [hs]
    rw [this]
    exact ⟨⟨h0, h2, h3, h4, hv0, hv1, Or.inr ⟨rfl, by simp [MsgCases]⟩⟩, rfl⟩
  · simp only [MsgCases, List.mem_cons, List.not_mem_nil, or_false,
      Prod.mk.injEq] at hm
    have hgen := GenerateRandomValue_range (sys.rands.headD 0)
    rcases hm with ⟨hf, ht⟩ | ⟨hf, ht⟩ | ⟨hf, ht⟩ | ⟨hf, ht⟩ | ⟨hf, ht⟩ | ⟨hf, ht⟩
    · have hs := stepAux_n2_fromLeft sys h2 hf ht hv0 hv1
      have : sysStep sys = ⟨sys.n0, sys.n1, sys.n2, sys.n3, sys.n4, 3, 4,
          sys.msgVal, sys.rands⟩ := by
        unfold sysStep
        rw [hs]
      rw [this]
      exact ⟨⟨h0, h2, h3, h4, hv0, hv1, Or.inr ⟨h1, by simp [MsgCases]⟩⟩, h1⟩
    · have hs := stepAux_n3_fromLeft sys h3 hf ht hv0 hv1
      have : sysStep sys = ⟨sys.n0, sys.n1, sys.n2, sys.n3, sys.n4, 4, 5,
          sys.msgVal, sys.rands⟩ := by
        unfold sysStep
        rw [hs]
      rw [this]
      exact ⟨⟨h0, h2, h3, h4, hv0, hv1, Or.inr ⟨h1, by simp [MsgCases]⟩⟩, h1⟩
    · have hs := stepAux_n4 sys h4 ht
      have : sysStep sys = ⟨sys.n0, sys.n1, sys.n2, sys.n3, sys.n4, 5, 4,
          GenerateRandomValue (sys.rands.headD 0), sys.rands.drop 1⟩ := by
        unfold sysStep
        rw [hs]
      rw [this]
      exact ⟨⟨h0, h2, h3, h4, hgen.1, hgen.2, Or.inr ⟨h1, by simp [MsgCases]⟩⟩, h1⟩
    · have hs := stepAux_n3_fromRight sys h3 hf ht hv0 hv1
      have : sysStep sys = ⟨sys.n0, sys.n1, sys.n2, sys.n3, sys.n4, 4, 3,
          sys.msgVal, sys.rands⟩ := by
        unfold sysStep
        rw [hs]
      rw [this]
      exact ⟨⟨h0, h2, h3, h4, hv0, hv1, Or.inr ⟨h1, by simp [MsgCases]⟩⟩, h1⟩
    · have hs := stepAux_n2_fromRight sys h2 hf ht hv0 hv1
      have : sysStep sys = ⟨sys.n0, sys.n1, sys.n2, sys.n3, sys.n4, 3, 2,
          sys.msgVal, sys.rands⟩ := by
        unfold sysStep
        rw [hs]
      rw [this]
      exact ⟨⟨h0, h2, h3, h4, hv0, hv1, Or.inr ⟨h1, by simp [MsgCases]⟩⟩, h1⟩
    · have hs := stepAux_n1post sys h1 ht (by omega)
      have : sysStep sys = ⟨sys.n0, flippedN1, sys.n2, sys.n3, sys.n4, 2, 3,
          GenerateRandomValue (sys.rands.headD 0), sys.rands.drop 1⟩ := by
        unfold sysStep
        rw [hs]
      rw [this]
      exact ⟨⟨h0, h2, h3, h4, hgen.1, hgen.2, Or.inr ⟨rfl, by simp [MsgCases]⟩⟩, rfl⟩

/-- Every state of the run satisfies the invariant. -/
theorem inv_run (rands : List Nat) (n : Nat) : Inv (runSys rands n) := by
  induction n with
  | zero => exact inv_init rands
  | succ n ih => exact (inv_step _ ih).1

/-- After the first delivery node 1 is permanently in its flipped state. -/
theorem run_n1_flipped (rands : List Nat) (n : Nat) :
    (runSys rands (n + 1)).n1 = flippedN1 :=
  (inv_step _ (inv_run rands n)).2

/-- C10: if `onReceive` is invoked and the received packet is empty (zero
bytes), the agent produces no log line and no outbound send, and its role
and neighbor state are unchanged (the receive loop breaks immediately). -/
theorem empty_packet_silently_ignored (s : AppState) (fromAddr : Nat) (rands : List Nat) :
    (processReceivedPacket s [(fromAddr, [])] rands).sends = [] ∧
    (processReceivedPacket s [(fromAddr, [])] rands).logs = [] ∧
    (processReceivedPacket s [(fromAddr, [])] rands).state.generator = s.generator ∧
    (processReceivedPacket s [(fromAddr, [])] rands).state.left_neighbor_ip =
      s.left_neighbor_ip ∧
    (processReceivedPacket s [(fromAddr, [])] rands).state.right_neighbor_ip =
      s.right_neighbor_ip :=
  ⟨rfl, rfl, rfl, rfl, rfl⟩

/-- C9: `StopApplication` releases the pending outbound (sender) socket and
the receiver socket, and it is idempotent: a second invocation performs zero
further `Close` calls and leaves the state exactly as after the first. -/
theorem stop_releases_sockets_idempotent (s : AppState) :
    (stopApplication s).1.sender_socket = false ∧
    (stopApplication s).1.receiver_socket = false ∧
    stopApplication (stopApplication s).1 = ((stopApplication s).1, 0) := by
  obtain ⟨i, rn, ln, g, snd, rcv⟩ := s
  cases snd <;> cases rcv <;> exact ⟨rfl, rfl, rfl⟩

/-- C4: every `onReceive` invocation with a valid token (non-empty payload
from a configured neighbor) produces exactly one outbound send, and the
single `StartApplication` of the origin produces exactly one outbound
send. -/
theorem each_receipt_exactly_one_send (s : AppState) (fromAddr : Nat)
    (payload : List Nat) (rands : List Nat) (r : Nat)
    (hp : payload.length ≠ 0)
    (hn : fromAddr = s.left_neighbor_ip ∨ fromAddr = s.right_neighbor_ip) :
    (processReceivedPacket s [(fromAddr, payload)] rands).sends.length = 1 ∧
    (startApplication (mainConfig 0) r).2.length = 1 := by
  refine ⟨?_, rfl⟩
  unfold processReceivedPacket recvLoop
  simp only [hp, if_false, ite_false]
  split
  · rfl
  · split
    · rfl
    · split
      · rfl
      · rfl

/-- C4 witness: node 3 receiving a 4-byte token from its left neighbor
produces exactly one outbound send, as does the origin's start. -/
theorem each_receipt_exactly_one_send_witness :
    (processReceivedPacket (startedConfig 3) [(3, encodeInt32BE 8)] []).sends.length = 1 ∧
    (startApplication (mainConfig 0) 0).2.length = 1 :=
  each_receipt_exactly_one_send (startedConfig 3) 3 (encodeInt32BE 8) [] 0
    (by decide) (Or.inl (by decide))

/-- C2: an agent in the `Forwarder` role (positions 2 and 3, and position 1
before its flip) sends the received token value unchanged, to the neighbor
opposite the one it arrived from: received from the right neighbor it sends
to the left neighbor, received from the left neighbor it sends to the right
neighbor. -/
theorem forwarder_sends_opposite_unchanged (s : AppState) (fromAddr : Nat)
    (v : Int) (rands : List Nat)
    (hs : s = startedConfig 1 ∨ s = startedConfig 2 ∨ s = startedConfig 3)
    (hv0 : 0 ≤ v) (hv1 : v ≤ 100) :
    (fromAddr = s.right_neighbor_ip →
      (processReceivedPacket s [(fromAddr, encodeInt32BE v)] rands).sends =
        [(s.left_neighbor_ip, v)]) ∧
    (fromAddr = s.left_neighbor_ip → fromAddr ≠ s.right_neighbor_ip →
      (processReceivedPacket s [(fromAddr, encodeInt32BE v)] rands).sends =
        [(s.right_neighbor_ip, v)]) := by
  have hdec := decode_encode v hv0 (by omega)
  rcases hs with rfl | rfl | rfl
  · constructor
    · intro hf
      simp only [startedConfig, startApplication, mainConfig, addrOf] at hf ⊢
      simp at hf
      simp [processReceivedPacket, recvLoop, hf, hdec, encodeInt32BE_length]
    · intro hf _
      simp only [startedConfig, startApplication, mainConfig, addrOf] at hf ⊢
      simp at hf
      simp [processReceivedPacket, recvLoop, hf, hdec, encodeInt32BE_length]
  · constructor
    · intro hf
      simp only [startedConfig, startApplication, mainConfig, addrOf] at hf ⊢
      simp at hf
      simp [processReceivedPacket, recvLoop, hf, hdec, encodeInt32BE_length]
    · intro hf _
      simp only [startedConfig, startApplication, mainConfig, addrOf] at hf ⊢
      simp at hf
      simp [processReceivedPacket, recvLoop, hf, hdec, encodeInt32BE_length]
  · constructor
    · intro hf
      simp only [startedConfig, startApplication, mainConfig, addrOf] at hf ⊢
      simp at hf
      simp [processReceivedPacket, recvLoop, hf, hdec, encodeInt32BE_length]
    · intro hf _
      simp only [startedConfig, startApplication, mainConfig, addrOf] at hf ⊢
      simp at hf
      simp [processReceivedPacket, recvLoop, hf, hdec, encodeInt32BE_length]

/-- C2 witness: node 2 receiving 9 from its right neighbor (node 3, address
4) forwards 9 unchanged to its left neighbor (node 1, address 2), and
receiving 9 from its left neighbor forwards it to its right neighbor. -/
theorem forwarder_sends_opposite_unchanged_witness :
    (processReceivedPacket (startedConfig 2) [(4, encodeInt32BE 9)] []).sends =
      [((startedConfig 2).left_neighbor_ip, 9)] ∧
    (processReceivedPacket (startedConfig 2) [(2, encodeInt32BE 9)] []).sends =
      [((startedConfig 2).right_neighbor_ip, 9)] :=
  ⟨(forwarder_sends_opposite_unchanged (startedConfig 2) 4 9 []
      (Or.inr (Or.inl rfl)) (by decide) (by decide)).1 (by decide),
   (forwarder_sends_opposite_unchanged (startedConfig 2) 2 9 []
      (Or.inr (Or.inl rfl)) (by decide) (by decide)).2 (by decide) (by decide)⟩

/-- C5 counterexample: address 9 is neither configured neighbor of node 2
(whose neighbors are addresses 2 and 4), yet a receipt from it is not
dropped: node 2 produces an outbound send of the received value 42 to its
right neighbor (address 4), contradicting the claim that no outbound send
occurs. -/
theorem nonneighbor_receipt_not_dropped :
    9 ≠ (startedConfig 2).left_neighbor_ip ∧
    9 ≠ (startedConfig 2).right_neighbor_ip ∧
    (processReceivedPacket (startedConfig 2) [(9, encodeInt32BE 42)] []).sends =
      [(4, 42)] := by
  decide

/-- C5 amended: a receipt whose sender is neither configured neighbor is not
rejected: the value is logged normally and exactly one outbound send occurs.
At position 1 a sender address equal to the origin re-triggers the flip
branch and the value is forwarded unchanged to the right neighbor; otherwise
a generator regenerates and sends to its stored left neighbor, and a
non-generator forwards the value unchanged to its right neighbor (the
comparison with the right neighbor fails, so the code guesses the right
side). -/
theorem nonneighbor_receipt_forwards (s : AppState) (fromAddr : Nat)
    (payload : List Nat) (rands : List Nat)
    (hl : fromAddr ≠ s.left_neighbor_ip) (hr : fromAddr ≠ s.right_neighbor_ip)
    (hp : payload.length ≠ 0) :
    (s.id = 1 → fromAddr = 1 →
      (processReceivedPacket s [(fromAddr, payload)] rands).sends =
        [(s.right_neighbor_ip, decodeInt32BE payload)]) ∧
    (¬(s.id = 1 ∧ fromAddr = 1) → s.generator = true →
      (processReceivedPacket s [(fromAddr, payload)] rands).sends =
        [(s.left_neighbor_ip, GenerateRandomValue (rands.headD 0))]) ∧
    (¬(s.id = 1 ∧ fromAddr = 1) → s.generator = false →
      (processReceivedPacket s [(fromAddr, payload)] rands).sends =
        [(s.right_neighbor_ip, decodeInt32BE payload)]) ∧
    (processReceivedPacket s [(fromAddr, payload)] rands).logs =
      [(s.id, decodeInt32BE payload)] := by
  refine ⟨?_, ?_, ?_, ?_⟩
  · intro hid hf
    simp [processReceivedPacket, recvLoop, hp, hid, hf]
  · intro hno hgen
    simp [processReceivedPacket, recvLoop, hp, hno, hgen]
  · intro hno hgen
    have hr2 : s.right_neighbor_ip ≠ fromAddr := fun h => hr h.symm
    simp [processReceivedPacket, recvLoop, hp, hno, hgen, hr2]
  · by_cases hno : s.id = 1 ∧ fromAddr = 1
    · simp [processReceivedPacket, recvLoop, hp, hno]
    · by_cases hgen : s.generator
      · simp [processReceivedPacket, recvLoop, hp, hno, hgen]
      · have hr2 : s.right_neighbor_ip ≠ fromAddr := fun h => hr h.symm
        simp [processReceivedPacket, recvLoop, hp, hno, hgen, hr2]

/-- C5 amended witness: node 2 (non-generator, neighbors 2 and 4) receiving
value 5 from the non-neighbor address 9 logs the receipt and forwards 5 to
its right neighbor. -/
theorem nonneighbor_receipt_forwards_witness :
    (processReceivedPacket (startedConfig 2) [(9, encodeInt32BE 5)] []).sends =
      [((startedConfig 2).right_neighbor_ip, decodeInt32BE (encodeInt32BE 5))] ∧
    (processReceivedPacket (startedConfig 2) [(9, encodeInt32BE 5)] []).logs =
      [((startedConfig 2).id, decodeInt32BE (encodeInt32BE 5))] :=
  ⟨(nonneighbor_receipt_forwards (startedConfig 2) 9 (encodeInt32BE 5) []
      (by decide) (by decide) (by decide)).2.2.1 (by decide) (by decide),
   (nonneighbor_receipt_forwards (startedConfig 2) 9 (encodeInt32BE 5) []
      (by decide) (by decide) (by decide)).2.2.2⟩

/-- C6 counterexample: an 8-byte payload (size not equal to 4) received by
node 2 from its left neighbor is not treated as malformed: the value read
from its first four bytes is logged and forwarded, contradicting the claim
that the message is dropped with no outbound send. -/
theorem eight_byte_payload_not_dropped :
    (encodeInt32BE 7 ++ encodeInt32BE 9).length = 8 ∧
    (processReceivedPacket (startedConfig 2)
      [(2, encodeInt32BE 7 ++ encodeInt32BE 9)] []).sends = [(4, 7)] ∧
    (processReceivedPacket (startedConfig 2)
      [(2, encodeInt32BE 7 ++ encodeInt32BE 9)] []).logs = [(2, 7)] := by
  decide

/-- C6 amended: only a zero-size payload is treated specially, and it is
dropped silently (no log line, no outbound send, loop breaks); a payload of
any other size, four bytes or not, is processed normally: the value is read
from its first four bytes, logged, and exactly one outbound send occurs. -/
theorem payload_size_handling (s : AppState) (fromAddr : Nat)
    (payload : List Nat) (rands : List Nat) :
    (payload.length = 0 →
      processReceivedPacket s [(fromAddr, payload)] rands =
        ⟨{ s with sender_socket := true }, [], [], rands⟩) ∧
    (payload.length ≠ 0 →
      (processReceivedPacket s [(fromAddr, payload)] rands).sends.length = 1 ∧
      (processReceivedPacket s [(fromAddr, payload)] rands).logs =
        [(s.id, decodeInt32BE payload)]) ∧
    decodeInt32BE payload = decodeInt32BE (payload.take 4) := by
  refine ⟨?_, ?_, ?_⟩
  · intro hp
    simp [processReceivedPacket, recvLoop, hp]
  · intro hp
    constructor
    · unfold processReceivedPacket recvLoop
      simp only [hp, if_false, ite_false]
      split
      · rfl
      · split
        · rfl
        · split
          · rfl
          · rfl
    · unfold processReceivedPacket recvLoop
      simp only [hp, if_false, ite_false]
      split
      · rfl
      · split
        · rfl
        · split
          · rfl
          · rfl
  · rcases payload with _ | ⟨a, _ | ⟨b, _ | ⟨c, _ | ⟨d, tl⟩⟩⟩⟩ <;> rfl

/-- C6 amended witness: the empty payload is dropped silently, and the
8-byte payload is processed with the value from its first four bytes. -/
theorem payload_size_handling_witness :
    processReceivedPacket (startedConfig 3) [(3, [])] [] =
      ⟨{ startedConfig 3 with sender_socket := true }, [], [], []⟩ ∧
    (processReceivedPacket (startedConfig 3)
      [(3, encodeInt32BE 11 ++ encodeInt32BE 4)] []).sends.length = 1 ∧
    (processReceivedPacket (startedConfig 3)
      [(3, encodeInt32BE 11 ++ encodeInt32BE 4)] []).logs =
      [((startedConfig 3).id, decodeInt32BE (encodeInt32BE 11 ++ encodeInt32BE 4))] :=
  ⟨(payload_size_handling (startedConfig 3) 3 [] []).1 (by decide),
   (payload_size_handling (startedConfig 3) 3 (encodeInt32BE 11 ++ encodeInt32BE 4) []).2.1
     (by decide)⟩

/-- C8 counterexample: node 1's stored left-neighbor identity is changed by
an `onReceive` invocation: the flip receipt from address 1 overwrites it
from 1 (node 0) to 3 (node 2), contradicting the claim that the stored
neighbor identities are unchanged by every invocation. -/
theorem flip_mutates_left_neighbor :
    (startedConfig 1).left_neighbor_ip = 1 ∧
    (processReceivedPacket (startedConfig 1)
      [(1, encodeInt32BE 5)] []).state.left_neighbor_ip = 3 := by
  decide

/-- C8 amended: the stored right-neighbor identity is unchanged by every
invocation of `StartApplication`, `ProcessReceivedPacket` and
`StopApplication`, and the stored left-neighbor identity is unchanged by all
of them except the position-1 flip receipt (node id 1, sender address 1,
non-empty payload), which overwrites it with the stored right neighbor. -/
theorem neighbors_static_except_flip (s : AppState) (fromAddr : Nat)
    (payload : List Nat) (rands : List Nat) (r : Nat) :
    (processReceivedPacket s [(fromAddr, payload)] rands).state.right_neighbor_ip =
      s.right_neighbor_ip ∧
    (¬(s.id = 1 ∧ fromAddr = 1 ∧ payload.length ≠ 0) →
      (processReceivedPacket s [(fromAddr, payload)] rands).state.left_neighbor_ip =
        s.left_neighbor_ip) ∧
    (s.id = 1 → fromAddr = 1 → payload.length ≠ 0 →
      (processReceivedPacket s [(fromAddr, payload)] rands).state.left_neighbor_ip =
        s.right_neighbor_ip) ∧
    (startApplication s r).1.left_neighbor_ip = s.left_neighbor_ip ∧
    (startApplication s r).1.right_neighbor_ip = s.right_neighbor_ip ∧
    (stopApplication s).1.left_neighbor_ip = s.left_neighbor_ip ∧
    (stopApplication s).1.right_neighbor_ip = s.right_neighbor_ip := by
  have hstart : (startApplication s r).1.left_neighbor_ip = s.left_neighbor_ip ∧
      (startApplication s r).1.right_neighbor_ip = s.right_neighbor_ip := by
    unfold startApplication
    by_cases h : s.id = 0 <;> simp [h]
  have hstop : (stopApplication s).1.left_neighbor_ip = s.left_neighbor_ip ∧
      (stopApplication s).1.right_neighbor_ip = s.right_neighbor_ip := by
    unfold stopApplication
    by_cases h1 : s.receiver_socket <;> by_cases h2 : s.sender_socket <;>
      simp [h1, h2]
  by_cases hp : payload.length = 0
  · refine ⟨?_, ?_, ?_, hstart.1, hstart.2, hstop.1, hstop.2⟩
    · simp [processReceivedPacket, recvLoop, hp]
    · intro
      simp [processReceivedPacket, recvLoop, hp]
    · intro _ _ hp2
      exact absurd hp hp2
  · refine ⟨?_, ?_, ?_, hstart.1, hstart.2, hstop.1, hstop.2⟩
    · by_cases hno : s.id = 1 ∧ fromAddr = 1
      · simp [processReceivedPacket, recvLoop, hp, hno]
      · by_cases hgen : s.generator <;>
          by_cases hrf : s.right_neighbor_ip = fromAddr <;>
            simp [processReceivedPacket, recvLoop, hp, hno, hgen, hrf]
    · intro hno2
      have hno : ¬(s.id = 1 ∧ fromAddr = 1) := by
        intro h
        exact hno2 ⟨h.1, h.2, hp⟩
      by_cases hgen : s.generator <;>
        by_cases hrf : s.right_neighbor_ip = fromAddr <;>
          simp [processReceivedPacket, recvLoop, hp, hno, hgen, hrf]
    · intro hid hf _
      simp [processReceivedPacket, recvLoop, hp, hid, hf]

/-- C8 amended witness: a non-flip receipt at node 2 leaves both stored
neighbor identities unchanged, and the flip receipt at node 1 overwrites the
stored left neighbor with the stored right neighbor. -/
theorem neighbors_static_except_flip_witness :
    (processReceivedPacket (startedConfig 2)
      [(4, encodeInt32BE 6)] []).state.right_neighbor_ip =
      (startedConfig 2).right_neighbor_ip ∧
    (processReceivedPacket (startedConfig 2)
      [(4, encodeInt32BE 6)] []).state.left_neighbor_ip =
      (startedConfig 2).left_neighbor_ip ∧
    (processReceivedPacket (startedConfig 1)
      [(1, encodeInt32BE 6)] []).state.left_neighbor_ip =
      (startedConfig 1).right_neighbor_ip :=
  ⟨(neighbors_static_except_flip (startedConfig 2) 4 (encodeInt32BE 6) [] 0).1,
   (neighbors_static_except_flip (startedConfig 2) 4 (encodeInt32BE 6) [] 0).2.1
     (by decide),
   (neighbors_static_except_flip (startedConfig 1) 1 (encodeInt32BE 6) [] 0).2.2.1
     (by decide) (by decide) (by decide)⟩

/-- C1: over the whole run, position 1's generator flag starts false, is
true from the first delivery onwards (irreversible, so it changes exactly
once), while it is still false the in-flight token is the one from position
0 (so the flip is triggered only by a receipt originating at position 0),
and every receipt delivered to position 1 after the flip produces a
regenerated value — the next draw of the shared generator — never a plain
forward of the received value. -/
theorem n1_flips_once_then_regenerates (rands : List Nat) (n : Nat) :
    (runSys rands 0).n1.generator = false ∧
    (runSys rands (n + 1)).n1.generator = true ∧
    ((runSys rands n).n1.generator = false →
      (runSys rands n).msgFrom = addrOf 0 ∧ (runSys rands n).msgTo = addrOf 1) ∧
    ((runSys rands n).n1.generator = true → (runSys rands n).msgTo = addrOf 1 →
      stepSends (runSys rands n) =
        [(addrOf 2, GenerateRandomValue ((runSys rands n).rands.headD 0))]) := by
  refine ⟨rfl, ?_, ?_, ?_⟩
  · rw [run_n1_flipped]
    rfl
  · intro hgen
    obtain ⟨h0, h2, h3, h4, hv0, hv1, hc⟩ := inv_run rands n
    rcases hc with ⟨h1, hf, ht⟩ | ⟨h1, hm⟩
    · exact ⟨hf, ht⟩
    · rw [h1] at hgen
      exact absurd hgen (by decide)
  · intro hgen ht
    obtain ⟨h0, h2, h3, h4, hv0, hv1, hc⟩ := inv_run rands n
    rcases hc with ⟨h1, hf, ht2⟩ | ⟨h1, hm⟩
    · rw [h1] at hgen
      exact absurd hgen (by decide)
    · simp only [MsgCases, List.mem_cons, List.not_mem_nil, or_false,
        Prod.mk.injEq] at hm
      have ht3 : (runSys rands n).msgTo = 2 := ht
      rcases hm with ⟨hf, hx⟩ | ⟨hf, hx⟩ | ⟨hf, hx⟩ | ⟨hf, hx⟩ | ⟨hf, hx⟩ | ⟨hf, hx⟩ <;>
        first
          | (exfalso; omega)
          | (unfold stepSends
             rw [stepAux_n1post (runSys rands n) h1 ht3 (by omega)]
             rfl)

/-- C1 witness: in the concrete run (all raw draws 0), node 1 is unflipped
at time 0, flipped from delivery 1 on, and its receipt at delivery 6 — the
first one after the flip — sends a regenerated value to node 2. -/
theorem n1_flips_once_then_regenerates_witness :
    (runSys [] 0).n1.generator = false ∧
    (runSys [] 7).n1.generator = true ∧
    stepSends (runSys [] 6) =
      [(addrOf 2, GenerateRandomValue ((runSys [] 6).rands.headD 0))] :=
  ⟨(n1_flips_once_then_regenerates [] 6).1,
   (n1_flips_once_then_regenerates [] 6).2.1,
   (n1_flips_once_then_regenerates [] 6).2.2.2 (by decide) (by decide)⟩

/-- C3: over the whole run, every receipt delivered to position 4 produces
an outbound token whose value is freshly generated (the next draw of the
shared generator) and lies in `[0, 100]`, sent to position 3 (address 4);
and every receipt delivered to position 1 after its flip produces such a
fresh token sent to position 2 (address 3), never to position 0. -/
theorem endpoints_regenerate_in_range (rands : List Nat) (n : Nat) :
    ((runSys rands n).msgTo = addrOf 4 →
      stepSends (runSys rands n) =
        [(addrOf 3, GenerateRandomValue ((runSys rands n).rands.headD 0))] ∧
      0 ≤ GenerateRandomValue ((runSys rands n).rands.headD 0) ∧
      GenerateRandomValue ((runSys rands n).rands.headD 0) ≤ 100) ∧
    ((runSys rands n).n1.generator = true → (runSys rands n).msgTo = addrOf 1 →
      stepSends (runSys rands n) =
        [(addrOf 2, GenerateRandomValue ((runSys rands n).rands.headD 0))] ∧
      addrOf 2 ≠ addrOf 0 ∧
      0 ≤ GenerateRandomValue ((runSys rands n).rands.headD 0) ∧
      GenerateRandomValue ((runSys rands n).rands.headD 0) ≤ 100) := by
  have hr := GenerateRandomValue_range ((runSys rands n).rands.headD 0)
  obtain ⟨h0, h2, h3, h4, hv0, hv1, hc⟩ := inv_run rands n
  constructor
  · intro ht
    have ht5 : (runSys rands n).msgTo = 5 := ht
    refine ⟨?_, hr.1, hr.2⟩
    unfold stepSends
    rw [stepAux_n4 (runSys rands n) h4 ht5]
    rfl
  · intro hgen ht
    rcases hc with ⟨h1, hf, ht2⟩ | ⟨h1, hm⟩
    · rw [h1] at hgen
      exact absurd hgen (by decide)
    · simp only [MsgCases, List.mem_cons, List.not_mem_nil, or_false,
        Prod.mk.injEq] at hm
      have ht3 : (runSys rands n).msgTo = 2 := ht
      refine ⟨?_, by decide, hr.1, hr.2⟩
      rcases hm with ⟨hf, hx⟩ | ⟨hf, hx⟩ | ⟨hf, hx⟩ | ⟨hf, hx⟩ | ⟨hf, hx⟩ | ⟨hf, hx⟩ <;>
        first
          | (exfalso; omega)
          | (unfold stepSends
             rw [stepAux_n1post (runSys rands n) h1 ht3 (by omega)]
             rfl)

/-- C3 witness: in the concrete run (all raw draws 0), delivery 3 reaches
node 4 and bounces a fresh value to node 3, and delivery 6 reaches the
flipped node 1 and bounces a fresh value to node 2. -/
theorem endpoints_regenerate_in_range_witness :
    stepSends (runSys [] 3) =
      [(addrOf 3, GenerateRandomValue ((runSys [] 3).rands.headD 0))] ∧
    stepSends (runSys [] 6) =
      [(addrOf 2, GenerateRandomValue ((runSys [] 6).rands.headD 0))] :=
  ⟨((endpoints_regenerate_in_range [] 3).1 (by decide)).1,
   ((endpoints_regenerate_in_range [] 6).2 (by decide) (by decide)).1⟩

/-- C7: the origin's `StartApplication` performs exactly one outbound send;
for the remainder of the run no delivery is ever addressed to position 0
(address 1) — so position 0 never receives, takes no further action, and in
particular no receipt at position 0 ever causes an outbound send — and node
0's state never changes after start. -/
theorem origin_sends_once_never_receives (rands : List Nat) (n : Nat) (r : Nat) :
    (startApplication (mainConfig 0) r).2.length = 1 ∧
    (runSys rands n).msgTo ≠ addrOf 0 ∧
    (runSys rands n).n0 = startedConfig 0 := by
  obtain ⟨h0, h2, h3, h4, hv0, hv1, hc⟩ := inv_run rands n
  refine ⟨rfl, ?_, h0⟩
  show (runSys rands n).msgTo ≠ 1
  rcases hc with ⟨h1, hf, ht⟩ | ⟨h1, hm⟩
  · omega
  · simp only [MsgCases, List.mem_cons, List.not_mem_nil, or_false,
      Prod.mk.injEq] at hm
    rcases hm with ⟨hf, hx⟩ | ⟨hf, hx⟩ | ⟨hf, hx⟩ | ⟨hf, hx⟩ | ⟨hf, hx⟩ | ⟨hf, hx⟩ <;>
      omega

/-- C7 witness: the theorem instantiated on the concrete run with all raw
draws 0, after four deliveries. -/
theorem origin_sends_once_never_receives_witness :
    (startApplication (mainConfig 0) 0).2.length = 1 ∧
    (runSys [] 4).msgTo ≠ addrOf 0 ∧
    (runSys [] 4).n0 = startedConfig 0 :=
  origin_sends_once_never_receives [] 4 0

end Atividade2
